import Mathlib

/-
Shallow embedding of maat's layered attestation APB
(src/apbs/layered_att_apb.c) together with theorems about the behaviour
of its measurement dispatcher, sign-send pipeline and orchestrator entry
point.

External collaborators (ASP worker execution, contract verification, the
place directory, graph-core file IO) are modelled as oracle inputs: a
record of the results those external calls may return, over which the
theorems quantify universally.  Everything the APB source itself computes
(branching, state updates, argument construction) is translated directly
from the C.
-/

/-- Resolved connection information for a symbolic place identifier
(struct place_info: only the addr/port fields are read by this APB). -/
structure PlaceInfo where
  addr : String
  port : String
deriving DecidableEq

/-- The dynamic measurement request address variant
(dynamic_measurement_request_address): a named attester and a resource. -/
structure DynMeasReqAddress where
  attester : String
  resource : String
deriving DecidableEq

/-- A measurement address, tagged by its address space.  The APB only
distinguishes the dynamic-measurement-request space from every other
space (the address->space pointer comparison at layered_att_apb.c:86). -/
inductive Address where
  | dynReq (va : DynMeasReqAddress)
  | other (spaceName : String)
deriving DecidableEq

/-- A measurement variable: a target type paired with an address. -/
structure MeasVar where
  targetType : String
  address : Address
deriving DecidableEq

/-- A graph node: its measurement variable and the measurement types for
which the node already holds data. -/
structure GraphNode where
  var : MeasVar
  data : List String
deriving DecidableEq

/-- The measurement graph: nodes indexed by position (node ids). -/
structure MeasGraph where
  nodes : List GraphNode
deriving DecidableEq

/-- measurement_graph_add_node: returns 1 and the existing id when a node
for the variable already exists, otherwise 0 and a freshly appended node.
(Graph-core itself is outside this file set; the add-at-most-once
behaviour is its documented contract used by this APB.) -/
def measurement_graph_add_node (g : MeasGraph) (var : MeasVar) :
    Int × Nat × MeasGraph :=
  match g.nodes.findIdx? (fun nd => decide (nd.var = var)) with
  | some i => (1, i, g)
  | none => (0, g.nodes.length, ⟨g.nodes ++ [⟨var, []⟩]⟩)

/-- measurement_node_has_data: whether node n already holds data of the
given measurement type. -/
def measurement_node_has_data (g : MeasGraph) (n : Nat) (mtype : String) : Bool :=
  match g.nodes.get? n with
  | some nd => nd.data.contains mtype
  | none => false

/-- measurement_node_get_address: a caller-owned copy of node n's address
(the node's variable address).  Returns none when the node is absent. -/
def measurement_node_get_address (g : MeasGraph) (n : Nat) : Option Address :=
  (g.nodes.get? n).map (fun nd => nd.var.address)

/-- measurement_node_add_data: record data of the given type on node n. -/
def measurement_node_add_data (g : MeasGraph) (n : Nat) (t : String) : MeasGraph :=
  ⟨g.nodes.mapIdx (fun i nd => if i = n then ⟨nd.var, nd.data ++ [t]⟩ else nd)⟩

/-- get_measurement_request_addr_from_node (layered_att_apb.c:73): look up
the node's address; -EIO when unavailable, -EINVAL when its address space
is not the dynamic-measurement-request space, otherwise the downcast
descriptor.  The graph is threaded through unchanged: the function only
reads the graph, and the free_address on the mismatch path releases the
caller-owned copy returned by measurement_node_get_address, never the
node's stored address. -/
def get_measurement_request_addr_from_node (g : MeasGraph) (nid : Nat) :
    (Except Int DynMeasReqAddress) × MeasGraph :=
  match measurement_node_get_address g nid with
  | none => (Except.error (-5), g)
  | some (Address.dynReq va) => (Except.ok va, g)
  | some (Address.other _) => (Except.error (-22), g)

/-- The single failure get_target_channel_info can report (it returns -1
after logging the unhandled attester name, layered_att_apb.c:115). -/
inductive ChannelInfoErr where
  | unknownAttester
deriving DecidableEq

/-- get_target_channel_info (layered_att_apb.c:103): map the attester
name to the resolved place info of one of the two configured places. -/
def get_target_channel_info (domZ domT : PlaceInfo) (va : DynMeasReqAddress) :
    Except ChannelInfoErr (String × String) :=
  if va.attester = "@_0" then Except.ok (domZ.addr, domZ.port)
  else if va.attester = "@_t" then Except.ok (domT.addr, domT.port)
  else Except.error ChannelInfoErr.unknownAttester

/-- The run scenario state visible to this APB: the contract buffer and
size that are swapped during remote verification, plus the fields the
pipeline reads. -/
structure Scenario where
  contract : Option (List Nat)
  size : Nat
  workdir : Option String
  partner_cert : Option String
deriving DecidableEq

/-- External observable actions performed by the measurement dispatcher. -/
inductive ShimEvent where
  | runAsp (name : String)
  | sendExecute (attester resource : String)
  | processContract
  | internalMeasure
deriving DecidableEq

/-- Oracle for the external calls made by measure_variable_shim:
select_asp's generic choice, graph-core IO failure, and result codes and
buffers of the worker/verifier calls. -/
structure ShimOracle where
  genericAsp : Option String
  addNodeFails : Bool
  runKernelRc : Int
  sendExecuteRc : Int
  receivedContract : List Nat
  processContractRc : Int
  marshallOk : Bool
  addDataRc : Int
  internalRc : Int
deriving DecidableEq

/-- Result of one dispatcher invocation: return code, scenario and graph
after the call, and the trace of worker invocations performed. -/
structure ShimResult where
  rc : Int
  scen : Scenario
  graph : MeasGraph
  events : List ShimEvent
deriving DecidableEq

/-- select_asp_shim (layered_att_apb.c:157): kernel measurements resolve
to the fixed kernel worker, everything else to the generic selection. -/
def select_asp_shim (mtype : String) (genericChoice : Option String) : Option String :=
  if mtype = "kernel_measurement_type" then some "kernel_msmt_asp"
  else genericChoice

/-- The add-node step shared by the kernel and remote branches: graph-core
IO failure (oracle) makes the rc-not-0-or-1 branch take the error exit. -/
def shim_add_node (o : ShimOracle) (g : MeasGraph) (var : MeasVar) :
    Option (Nat × MeasGraph) :=
  if o.addNodeFails then none
  else
    let r := measurement_graph_add_node g var
    some (r.2.1, r.2.2)

/-- The kernel-direct branch of measure_variable_shim
(layered_att_apb.c:204): add/find the node, return 0 if data of this type
already exists, otherwise run the kernel worker and return its status. -/
def kernel_direct_path (o : ShimOracle) (scen : Scenario) (g : MeasGraph)
    (var : MeasVar) (mtype : String) : ShimResult :=
  match shim_add_node o g var with
  | none => ⟨-1, scen, g, []⟩
  | some (n, g1) =>
    if measurement_node_has_data g1 n mtype then ⟨0, scen, g1, []⟩
    else ⟨o.runKernelRc, scen, g1, [ShimEvent.runAsp "kernel_msmt_asp"]⟩

/-- The remote-layered branch of measure_variable_shim
(layered_att_apb.c:229): add/find the node; return 0 if data already
exists; resolve the request address and the target place; invoke the
send_execute_tcp worker; swap the scenario contract buffer for the
received one, verify with process_contract, then unconditionally restore
the original buffer and size; marshall and attach the extracted blob. -/
def remote_layered_path (o : ShimOracle) (domZ domT : PlaceInfo)
    (scen : Scenario) (g : MeasGraph) (var : MeasVar) (mtype : String) :
    ShimResult :=
  match shim_add_node o g var with
  | none => ⟨-1, scen, g, []⟩
  | some (n, g1) =>
    if measurement_node_has_data g1 n mtype then ⟨0, scen, g1, []⟩
    else
      match (get_measurement_request_addr_from_node g1 n).1 with
      | Except.error _ => ⟨-1, scen, g1, []⟩
      | Except.ok va =>
        match get_target_channel_info domZ domT va with
        | Except.error _ => ⟨-1, scen, g1, []⟩
        | Except.ok _ =>
          let ev1 := [ShimEvent.sendExecute va.attester va.resource]
          if o.sendExecuteRc < 0 then ⟨-1, scen, g1, ev1⟩
          else
            let saved_contract := scen.contract
            let saved_size := scen.size
            let received := if o.sendExecuteRc = 0 then some o.receivedContract else none
            let rlen := if o.sendExecuteRc = 0 then o.receivedContract.length else 0
            let scen1 : Scenario := { scen with contract := received, size := rlen }
            let ev2 := ev1 ++ [ShimEvent.processContract]
            let scen2 : Scenario := { scen1 with contract := saved_contract, size := saved_size }
            if o.processContractRc < 0 then ⟨-1, scen2, g1, ev2⟩
            else if !o.marshallOk then ⟨-1, scen2, g1, ev2⟩
            else ⟨o.addDataRc, scen2,
                  measurement_node_add_data g1 n "blob_measurement_type", ev2⟩

/-- measure_variable_shim (layered_att_apb.c:170): the measurement
dispatcher.  Select the worker, then branch on its name: the kernel
worker, the remote send_execute_tcp worker, or the default userspace
procedure. -/
def measure_variable_shim (o : ShimOracle) (domZ domT : PlaceInfo)
    (scen : Scenario) (g : MeasGraph) (var : MeasVar) (mtype : String) :
    ShimResult :=
  match select_asp_shim mtype o.genericAsp with
  | none => ⟨-2, scen, g, []⟩
  | some name =>
    if name = "kernel_msmt_asp" then
      kernel_direct_path o scen g var mtype
    else if name = "send_execute_tcp_asp" then
      remote_layered_path o domZ domT scen g var mtype
    else
      ⟨o.internalRc, scen, g, [ShimEvent.internalMeasure]⟩

/-- Outcome of fork_and_buffer_async_asp at one pipeline level: spawn
failure (-2), failure waiting on the worker or child (-1), continuing as
the parent (positive return), or continuing as the child (0). -/
inductive ForkOutcome where
  | spawnFail
  | waitFail
  | parent
  | child
deriving DecidableEq

/-- Oracle for the external calls made by execute_sign_send_pipeline:
strdup results, the ASP registry contents, graph path retrieval, the
branch taken by each fork_and_buffer call, the send worker's status and
the positive value fork_and_buffer returns in a parent process. -/
structure PipelineOracle where
  workdirStrdupOk : Bool
  availableAsps : List String
  graphPathOk : Bool
  partnerCertStrdupOk : Bool
  serializeFork : ForkOutcome
  compressFork : ForkOutcome
  encryptFork : ForkOutcome
  createConFork : ForkOutcome
  sendRc : Int
  forkParentVal : Int
deriving DecidableEq

/-- How the process running execute_sign_send_pipeline finishes: either
the function returns a value to its caller (the original process), or the
process terminates itself with an exit status (the forked chain). -/
inductive PipeOutcome where
  | ret (v : Int)
  | procExit (v : Int)
deriving DecidableEq

/-- Observable result of one pipeline run: the outcome, the stages whose
fork or run call was made, every store into create_con_args as an
(index, value) pair in program order, and the argument count passed to
the create-contract fork when that call is reached. -/
structure PipelineRun where
  outcome : PipeOutcome
  spawned : List String
  argStores : List (Nat × String)
  createConArgc : Option Nat
deriving DecidableEq

/-- Declared length of create_con_args (layered_att_apb.c:337 declares
char pointer array create_con_args with 8 elements). -/
def create_con_args_decl_len : Nat := 8

/-- The encryption-flag argument handed to the signing stage: the value
stored at index 9 of create_con_args (layered_att_apb.c:415 and 429). -/
def encryptionFlag (r : PipelineRun) : Option String :=
  (r.argStores.find? (fun p => decide (p.1 = 9))).map (fun p => p.2)

/-- The create-contract and send tail of the pipeline
(layered_att_apb.c:432-464): store create_con_args indices 0 through 8,
fork the create-contract worker with argument count 10, and in the leaf
child run the send worker, exiting with its status. -/
def signing_and_send_stage (o : PipelineOracle) (baseSpawned : List String)
    (flagStores : List (Nat × String))
    (wd gcert gkey gkeypass gtpmpass gakctx gsigntpm : String) : PipelineRun :=
  let allStores := flagStores ++
    [(0, wd), (1, gcert), (2, gkey), (3, gkeypass), (4, gtpmpass),
     (5, gakctx), (6, gsigntpm), (7, "1"), (8, "1")]
  let spawned1 := baseSpawned ++ ["create_measurement_contract_asp"]
  match o.createConFork with
  | ForkOutcome.spawnFail => ⟨PipeOutcome.procExit (-1), spawned1, allStores, some 10⟩
  | ForkOutcome.waitFail => ⟨PipeOutcome.procExit (-1), spawned1, allStores, some 10⟩
  | ForkOutcome.parent => ⟨PipeOutcome.procExit 0, spawned1, allStores, some 10⟩
  | ForkOutcome.child =>
    let spawned2 := spawned1 ++ ["send_asp"]
    if o.sendRc < 0 then ⟨PipeOutcome.procExit (-1), spawned2, allStores, some 10⟩
    else ⟨PipeOutcome.procExit o.sendRc, spawned2, allStores, some 10⟩

/-- execute_sign_send_pipeline (layered_att_apb.c:327): copy the workdir
(failure is fatal), resolve the five workers up front, get the graph
path, then run the serialize, compress, optional encrypt, create-contract
and send chain.  The encrypt stage is forked only when the scenario's
partner certificate is set and its strdup succeeds; that branch stores
"1" at create_con_args index 9 before forking, the fallback stores "0". -/
def execute_sign_send_pipeline (o : PipelineOracle) (scen : Scenario)
    (gcert gkey gkeypass gtpmpass gakctx gsigntpm : String) : PipelineRun :=
  match scen.workdir with
  | none => ⟨PipeOutcome.ret (-1), [], [], none⟩
  | some wd =>
    if !o.workdirStrdupOk then ⟨PipeOutcome.ret (-1), [], [], none⟩
    else if !(o.availableAsps.contains "serialize_graph_asp") then
      ⟨PipeOutcome.ret (-1), [], [], none⟩
    else if !(o.availableAsps.contains "compress_asp") then
      ⟨PipeOutcome.ret (-1), [], [], none⟩
    else if !(o.availableAsps.contains "encrypt_asp") then
      ⟨PipeOutcome.ret (-1), [], [], none⟩
    else if !(o.availableAsps.contains "create_measurement_contract_asp") then
      ⟨PipeOutcome.ret (-1), [], [], none⟩
    else if !(o.availableAsps.contains "send_asp") then
      ⟨PipeOutcome.ret (-1), [], [], none⟩
    else if !o.graphPathOk then ⟨PipeOutcome.ret (-1), [], [], none⟩
    else
      match o.serializeFork with
      | ForkOutcome.spawnFail => ⟨PipeOutcome.ret (-2), ["serialize_graph_asp"], [], none⟩
      | ForkOutcome.waitFail => ⟨PipeOutcome.ret (-1), ["serialize_graph_asp"], [], none⟩
      | ForkOutcome.parent =>
        ⟨PipeOutcome.ret o.forkParentVal, ["serialize_graph_asp"], [], none⟩
      | ForkOutcome.child =>
        let sp1 := ["serialize_graph_asp", "compress_asp"]
        match o.compressFork with
        | ForkOutcome.spawnFail => ⟨PipeOutcome.procExit (-1), sp1, [], none⟩
        | ForkOutcome.waitFail => ⟨PipeOutcome.procExit (-1), sp1, [], none⟩
        | ForkOutcome.parent => ⟨PipeOutcome.procExit 0, sp1, [], none⟩
        | ForkOutcome.child =>
          if scen.partner_cert.isSome && o.partnerCertStrdupOk then
            let sp2 := sp1 ++ ["encrypt_asp"]
            match o.encryptFork with
            | ForkOutcome.spawnFail =>
              ⟨PipeOutcome.procExit (-1), sp2, [(9, "1")], none⟩
            | ForkOutcome.waitFail =>
              ⟨PipeOutcome.procExit (-1), sp2, [(9, "1")], none⟩
            | ForkOutcome.parent => ⟨PipeOutcome.procExit 0, sp2, [(9, "1")], none⟩
            | ForkOutcome.child =>
              signing_and_send_stage o sp2 [(9, "1")]
                wd gcert gkey gkeypass gtpmpass gakctx gsigntpm
          else
            signing_and_send_stage o sp1 [(9, "0")]
              wd gcert gkey gkeypass gtpmpass gakctx gsigntpm

/-- A key/value invocation argument (struct key_value). -/
structure KeyValue where
  key : String
  value : String
deriving DecidableEq

/-- The two place resolutions populated by the argument loop
(g_dom_z_info and g_dom_t_info). -/
structure PlacesState where
  domZ : Option PlaceInfo
  domT : Option PlaceInfo
deriving DecidableEq

/-- The argument loop of apb_execute (layered_att_apb.c:499-530): for each
argument, resolve key "@_0" or "@_t" through the place directory unless
that place is already set (a duplicate is logged and skipped), log and
skip any other key, and jump to the error exit when a place lookup fails.
The Int threads ret_val: 0 after each successful lookup, the lookup's
error code on failure. -/
def processPlaceArgs (pd : String → Except Int PlaceInfo) :
    List KeyValue → PlacesState → Int → Option PlacesState × Int
  | [], st, rv => (some st, rv)
  | a :: rest, st, rv =>
    if a.key = "@_0" then
      match st.domZ with
      | some _ => processPlaceArgs pd rest st rv
      | none =>
        match pd a.value with
        | Except.error e => (none, e)
        | Except.ok info => processPlaceArgs pd rest { st with domZ := some info } 0
    else if a.key = "@_t" then
      match st.domT with
      | some _ => processPlaceArgs pd rest st rv
      | none =>
        match pd a.value with
        | Except.error e => (none, e)
        | Except.ok info => processPlaceArgs pd rest { st with domT := some info } 0
    else
      processPlaceArgs pd rest st rv

/-- Oracle for the external calls made by apb_execute: the place
directory, register_types, get_target_meas_spec, graph creation, the
credential staging strdups, the evaluation engine's (discarded) result
and the pipeline's result. -/
structure ApbOracle where
  placeDir : String → Except Int PlaceInfo
  registerTypesRc : Int
  measSpecRc : Int
  graphOk : Bool
  stagingOk : Bool
  evalRc : Int
  pipelineRc : Int

/-- apb_execute (layered_att_apb.c:476): reject argument counts other
than 2; register types; run the place-argument loop; fail when either
place is unresolved (returning the current ret_val); load the measurement
spec; create the graph (-EIO on failure); stage credential strings
(failure returns the current ret_val); evaluate the measurement spec
discarding its result; return the sign-send pipeline's result. -/
def apb_execute (o : ApbOracle) (args : List KeyValue) : Int :=
  if args.length ≠ 2 then -1
  else if o.registerTypesRc < 0 then o.registerTypesRc
  else
    match processPlaceArgs o.placeDir args ⟨none, none⟩ o.registerTypesRc with
    | (none, rv) => rv
    | (some st, rv) =>
      if st.domZ.isNone || st.domT.isNone then rv
      else if o.measSpecRc ≠ 0 then o.measSpecRc
      else if !o.graphOk then -5
      else if !o.stagingOk then o.measSpecRc
      else o.pipelineRc

/-- The guards that must pass for a pipeline run to reach the optional
encryption step: workdir copied, all five workers resolved, graph path
obtained, and the serialize and compress forks both continuing as the
child of the chain. -/
def pipeline_reaches_stage_three (o : PipelineOracle) (scen : Scenario) : Prop :=
  scen.workdir.isSome = true ∧ o.workdirStrdupOk = true
  ∧ "serialize_graph_asp" ∈ o.availableAsps
  ∧ "compress_asp" ∈ o.availableAsps
  ∧ "encrypt_asp" ∈ o.availableAsps
  ∧ "create_measurement_contract_asp" ∈ o.availableAsps
  ∧ "send_asp" ∈ o.availableAsps
  ∧ o.graphPathOk = true
  ∧ o.serializeFork = ForkOutcome.child
  ∧ o.compressFork = ForkOutcome.child

/- Concrete inputs used to evaluate the definitions at specific runs. -/

/-- A place directory resolving the two lookup keys "a" and "b". -/
def pdEx : String → Except Int PlaceInfo := fun s =>
  if s = "a" then Except.ok ⟨"127.0.0.1", "9000"⟩
  else if s = "b" then Except.ok ⟨"127.0.0.1", "9001"⟩
  else Except.error (-1)

/-- An orchestrator oracle whose external calls all succeed and whose
pipeline returns 7. -/
def apbOracleEx : ApbOracle := ⟨pdEx, 0, 0, true, true, 0, 7⟩

/-- The five workers the pipeline resolves by name. -/
def allPipelineAsps : List String :=
  ["serialize_graph_asp", "compress_asp", "encrypt_asp",
   "create_measurement_contract_asp", "send_asp"]

/-- A pipeline oracle for a fully successful run that continues as the
child at every fork. -/
def pipeOracleAllChild : PipelineOracle :=
  ⟨true, allPipelineAsps, true, true, ForkOutcome.child, ForkOutcome.child,
   ForkOutcome.child, ForkOutcome.child, 0, 1⟩

/-- Same oracle except the workdir strdup fails. -/
def pipeOracleWorkdirFail : PipelineOracle :=
  ⟨false, allPipelineAsps, true, true, ForkOutcome.child, ForkOutcome.child,
   ForkOutcome.child, ForkOutcome.child, 0, 1⟩

/-- Same oracle except the partner-certificate strdup fails. -/
def pipeOracleCertCopyFail : PipelineOracle :=
  ⟨true, allPipelineAsps, true, false, ForkOutcome.child, ForkOutcome.child,
   ForkOutcome.child, ForkOutcome.child, 0, 1⟩

/-- A scenario with no partner certificate. -/
def scenNoCert : Scenario := ⟨none, 0, some "wd", none⟩

/-- A scenario with a partner certificate configured. -/
def scenWithCert : Scenario := ⟨none, 0, some "wd", some "partner.pem"⟩

/-- A shim oracle whose generic selection picks the remote worker and
whose external calls all succeed. -/
def shimOracleRemote : ShimOracle :=
  ⟨some "send_execute_tcp_asp", false, 0, 0, [1, 2, 3], 0, true, 0, 0⟩

/-- A shim oracle for the kernel-direct strategy. -/
def shimOracleKernel : ShimOracle :=
  ⟨none, false, 0, 0, [], 0, true, 0, 0⟩

/-- Resolved info for the domain-zero place. -/
def placeZ : PlaceInfo := ⟨"127.0.0.1", "9000"⟩

/-- Resolved info for the target place. -/
def placeT : PlaceInfo := ⟨"127.0.0.1", "9001"⟩

/-- A scenario with an original contract buffer of two bytes. -/
def scen0 : Scenario := ⟨some [7, 7], 2, some "wd", none⟩

/-- A variable whose request address names an attester that is neither of
the two configured places. -/
def varBadAttester : MeasVar := ⟨"process", Address.dynReq ⟨"@_x", "app-list"⟩⟩

/-- A graph holding one data-less node for varBadAttester. -/
def gBadAttester : MeasGraph := ⟨[⟨varBadAttester, []⟩]⟩

/-- A kernel measurement variable. -/
def varKernel : MeasVar := ⟨"kernel", Address.other "unit_address_space"⟩

/-- A graph whose node for varKernel already holds kernel-type data. -/
def gKernelHasData : MeasGraph := ⟨[⟨varKernel, ["kernel_measurement_type"]⟩]⟩

/-- A variable whose recorded address is not a
dynamic-measurement-request address. -/
def varWrongKind : MeasVar := ⟨"process", Address.other "file_addr_space"⟩

/-- A graph holding one data-less node for varWrongKind. -/
def gWrongKind : MeasGraph := ⟨[⟨varWrongKind, []⟩]⟩

/-- The remote-layered branch returns the scenario it was given: the
contract swap performed for process_contract is always followed by the
restore of the saved buffer and size, on every exit path. -/
theorem remote_layered_path_scen_eq (o : ShimOracle) (domZ domT : PlaceInfo)
    (scen : Scenario) (g : MeasGraph) (var : MeasVar) (mtype : String) :
    (remote_layered_path o domZ domT scen g var mtype).scen = scen := by
  unfold remote_layered_path
  rcases shim_add_node o g var with _ | ⟨n, g1⟩
  · rfl
  · simp only
    split
    · rfl
    · split
      · rfl
      · split
        · rfl
        · split
          · rfl
          · split
            · rfl
            · split
              · rfl
              · rfl

/-- C1: for every invocation of the measurement dispatcher on the
remote-layered path, the scenario's contract buffer pointer and contract
size fields after the dispatch equal their values before the dispatch,
whether contract verification succeeds or fails, on every exit path
including early error returns. -/
theorem C1_remote_dispatch_restores_scenario_contract
    (o : ShimOracle) (domZ domT : PlaceInfo) (scen : Scenario)
    (g : MeasGraph) (var : MeasVar) (mtype : String)
    (hsel : select_asp_shim mtype o.genericAsp = some "send_execute_tcp_asp") :
    (measure_variable_shim o domZ domT scen g var mtype).scen.contract = scen.contract
    ∧ (measure_variable_shim o domZ domT scen g var mtype).scen.size = scen.size := by
  have hs : (measure_variable_shim o domZ domT scen g var mtype).scen = scen := by
    unfold measure_variable_shim
    rw [hsel]
    simp only
    rw [if_neg (by decide : ¬("send_execute_tcp_asp" = "kernel_msmt_asp"))]
    rw [if_true]
    exact remote_layered_path_scen_eq o domZ domT scen g var mtype
  rw [hs]
  exact ⟨rfl, rfl⟩

/-- Witness for C1 at a concrete remote-layered dispatch. -/
theorem C1_witness :
    (measure_variable_shim shimOracleRemote placeZ placeT scen0 gBadAttester
      varBadAttester "process_type").scen.contract = scen0.contract
    ∧ (measure_variable_shim shimOracleRemote placeZ placeT scen0 gBadAttester
      varBadAttester "process_type").scen.size = scen0.size :=
  C1_remote_dispatch_restores_scenario_contract shimOracleRemote placeZ placeT
    scen0 gBadAttester varBadAttester "process_type" rfl

/-- C5: for every variable whose graph node already holds data of the
requested measurement type, dispatch performs no worker invocation and
returns success, on both the kernel-direct and remote-layered
strategies. -/
theorem C5_dispatch_idempotent_when_data_present
    (o : ShimOracle) (domZ domT : PlaceInfo) (scen : Scenario) (g : MeasGraph)
    (var : MeasVar) (mtype name : String)
    (hsel : select_asp_shim mtype o.genericAsp = some name)
    (hname : name = "kernel_msmt_asp" ∨ name = "send_execute_tcp_asp")
    (hadd : o.addNodeFails = false)
    (hdata : measurement_node_has_data (measurement_graph_add_node g var).2.2
      (measurement_graph_add_node g var).2.1 mtype = true) :
    (measure_variable_shim o domZ domT scen g var mtype).rc = 0
    ∧ (measure_variable_shim o domZ domT scen g var mtype).events = [] := by
  have hsn : shim_add_node o g var =
      some ((measurement_graph_add_node g var).2.1,
            (measurement_graph_add_node g var).2.2) := by
    unfold shim_add_node
    rw [hadd]
    simp
  rcases hname with h | h <;> subst h
  · constructor <;>
      simp [measure_variable_shim, hsel, kernel_direct_path, hsn, hdata]
  · constructor <;>
      simp [measure_variable_shim, hsel, remote_layered_path, hsn, hdata]

/-- Witness for C5 at a concrete kernel-direct dispatch on a node that
already holds kernel-type data. -/
theorem C5_witness :
    (measure_variable_shim shimOracleKernel placeZ placeT scen0 gKernelHasData
      varKernel "kernel_measurement_type").rc = 0
    ∧ (measure_variable_shim shimOracleKernel placeZ placeT scen0 gKernelHasData
      varKernel "kernel_measurement_type").events = [] :=
  C5_dispatch_idempotent_when_data_present shimOracleKernel placeZ placeT scen0
    gKernelHasData varKernel "kernel_measurement_type" "kernel_msmt_asp" rfl
    (Or.inl rfl) rfl rfl

/-- C6: for every remote-layered dispatch whose resolved request address
names an attester other than the two configured places, the target
channel lookup fails with the unknown-attester error, the dispatch
returns -1, and the remote channel client is never invoked. -/
theorem C6_unknown_attester_never_contacts_channel
    (o : ShimOracle) (domZ domT : PlaceInfo) (scen : Scenario) (g : MeasGraph)
    (var : MeasVar) (mtype : String) (va : DynMeasReqAddress)
    (hsel : select_asp_shim mtype o.genericAsp = some "send_execute_tcp_asp")
    (hadd : o.addNodeFails = false)
    (hdata : measurement_node_has_data (measurement_graph_add_node g var).2.2
      (measurement_graph_add_node g var).2.1 mtype = false)
    (hva : (get_measurement_request_addr_from_node
      (measurement_graph_add_node g var).2.2
      (measurement_graph_add_node g var).2.1).1 = Except.ok va)
    (hz : ¬ va.attester = "@_0") (ht : ¬ va.attester = "@_t") :
    get_target_channel_info domZ domT va = Except.error ChannelInfoErr.unknownAttester
    ∧ (measure_variable_shim o domZ domT scen g var mtype).rc = -1
    ∧ (measure_variable_shim o domZ domT scen g var mtype).events = [] := by
  have hch : get_target_channel_info domZ domT va =
      Except.error ChannelInfoErr.unknownAttester := by
    unfold get_target_channel_info
    rw [if_neg hz, if_neg ht]
  have hsn : shim_add_node o g var =
      some ((measurement_graph_add_node g var).2.1,
            (measurement_graph_add_node g var).2.2) := by
    unfold shim_add_node
    rw [hadd]
    simp
  refine ⟨hch, ?_, ?_⟩ <;>
    simp [measure_variable_shim, hsel, remote_layered_path, hsn, hdata, hva, hch]

/-- Witness for C6 at a concrete dispatch naming the attester "@_x". -/
theorem C6_witness :
    get_target_channel_info placeZ placeT ⟨"@_x", "app-list"⟩ =
      Except.error ChannelInfoErr.unknownAttester
    ∧ (measure_variable_shim shimOracleRemote placeZ placeT scen0 gBadAttester
      varBadAttester "process_type").rc = -1
    ∧ (measure_variable_shim shimOracleRemote placeZ placeT scen0 gBadAttester
      varBadAttester "process_type").events = [] :=
  C6_unknown_attester_never_contacts_channel shimOracleRemote placeZ placeT
    scen0 gBadAttester varBadAttester "process_type" ⟨"@_x", "app-list"⟩
    rfl rfl rfl rfl (by decide) (by decide)

/-- C7: for every node whose recorded address is not a
dynamic-measurement-request address, the resolver fails with -EINVAL (the
address-kind mismatch), the remote-layered dispatch returns -1 leaving
the measurement graph unchanged, and on every path the resolver hands the
graph back unmodified (it frees only its own copy of the address, never
the node's underlying address). -/
theorem C7_addr_kind_mismatch_leaves_graph_unchanged
    (o : ShimOracle) (domZ domT : PlaceInfo) (scen : Scenario) (g : MeasGraph)
    (var : MeasVar) (mtype : String) (n : Nat) (spaceName : String)
    (hsel : select_asp_shim mtype o.genericAsp = some "send_execute_tcp_asp")
    (hadd : o.addNodeFails = false)
    (hfind : g.nodes.findIdx? (fun nd => decide (nd.var = var)) = some n)
    (hdata : measurement_node_has_data g n mtype = false)
    (haddr : measurement_node_get_address g n = some (Address.other spaceName)) :
    (get_measurement_request_addr_from_node g n).1 = Except.error (-22)
    ∧ (measure_variable_shim o domZ domT scen g var mtype).rc = -1
    ∧ (measure_variable_shim o domZ domT scen g var mtype).graph = g
    ∧ (∀ (g2 : MeasGraph) (nid : Nat),
        (get_measurement_request_addr_from_node g2 nid).2 = g2) := by
  have hframe : ∀ (g2 : MeasGraph) (nid : Nat),
      (get_measurement_request_addr_from_node g2 nid).2 = g2 := by
    intro g2 nid
    unfold get_measurement_request_addr_from_node
    rcases measurement_node_get_address g2 nid with _ | a
    · rfl
    · cases a <;> rfl
  have hres : (get_measurement_request_addr_from_node g n).1 =
      Except.error (-22) := by
    unfold get_measurement_request_addr_from_node
    rw [haddr]
  have haddn : measurement_graph_add_node g var = (1, n, g) := by
    unfold measurement_graph_add_node
    rw [hfind]
  have hsn : shim_add_node o g var = some (n, g) := by
    unfold shim_add_node
    rw [hadd]
    simp [haddn]
  refine ⟨hres, ?_, ?_, hframe⟩ <;>
    simp [measure_variable_shim, hsel, remote_layered_path, hsn, hdata, hres]

/-- Witness for C7 at a concrete node with a file-space address. -/
theorem C7_witness :
    (get_measurement_request_addr_from_node gWrongKind 0).1 = Except.error (-22)
    ∧ (measure_variable_shim shimOracleRemote placeZ placeT scen0 gWrongKind
      varWrongKind "process_type").rc = -1
    ∧ (measure_variable_shim shimOracleRemote placeZ placeT scen0 gWrongKind
      varWrongKind "process_type").graph = gWrongKind
    ∧ (∀ (g2 : MeasGraph) (nid : Nat),
        (get_measurement_request_addr_from_node g2 nid).2 = g2) :=
  C7_addr_kind_mismatch_leaves_graph_unchanged shimOracleRemote placeZ placeT
    scen0 gWrongKind varWrongKind "process_type" 0 "file_addr_space"
    rfl rfl rfl rfl rfl

/-- C2: a successful pipeline run stores into create_con_args at indices
8 and 9, beyond the declared 8-element bound, and passes argument count
10 to the create-contract fork.  This evaluates the embedded pipeline at
a concrete run that reaches the signing stage and exhibits the
out-of-bounds stores the claim rules out. -/
theorem C2_create_con_args_stores_exceed_declared_bound :
    (∃ p, p ∈ (execute_sign_send_pipeline pipeOracleAllChild scenNoCert
        "cert" "key" "keypass" "tpmpass" "akctx" "1").argStores
      ∧ create_con_args_decl_len ≤ p.1)
    ∧ (execute_sign_send_pipeline pipeOracleAllChild scenNoCert
        "cert" "key" "keypass" "tpmpass" "akctx" "1").createConArgc = some 10
    ∧ create_con_args_decl_len = 8 := by
  refine ⟨⟨(9, "0"), ?_, by decide⟩, rfl, rfl⟩
  show (9, "0") ∈ (execute_sign_send_pipeline pipeOracleAllChild scenNoCert
    "cert" "key" "keypass" "tpmpass" "akctx" "1").argStores
  simp [execute_sign_send_pipeline, pipeOracleAllChild, scenNoCert,
    allPipelineAsps, signing_and_send_stage]

/-- C3 counterexample: with the partner certificate configured, a failed
copy of the certificate path is not fatal (the run still reaches the
create-contract fork and finishes), while a failed copy of the working
directory aborts the pipeline before any stage is spawned — so an
allocation failure other than the certificate-path copy does abort the
pipeline, and the certificate-path copy failure does not. -/
theorem C3_counterexample_workdir_copy_is_fatal :
    scenWithCert.partner_cert.isSome = true
    ∧ (execute_sign_send_pipeline pipeOracleWorkdirFail scenWithCert
        "cert" "key" "keypass" "tpmpass" "akctx" "1").outcome = PipeOutcome.ret (-1)
    ∧ (execute_sign_send_pipeline pipeOracleWorkdirFail scenWithCert
        "cert" "key" "keypass" "tpmpass" "akctx" "1").spawned = []
    ∧ (execute_sign_send_pipeline pipeOracleCertCopyFail scenWithCert
        "cert" "key" "keypass" "tpmpass" "akctx" "1").createConArgc = some 10
    ∧ (execute_sign_send_pipeline pipeOracleCertCopyFail scenWithCert
        "cert" "key" "keypass" "tpmpass" "akctx" "1").outcome = PipeOutcome.procExit 0 :=
  ⟨rfl, rfl, rfl, rfl, rfl⟩

/-- The create-contract/send tail adds only the create-contract and send
stage names to the spawn trace. -/
theorem signing_and_send_stage_spawned_mem (o : PipelineOracle)
    (base : List String) (fs : List (Nat × String))
    (wd a b c d e f s : String)
    (h1 : ¬ s = "create_measurement_contract_asp") (h2 : ¬ s = "send_asp") :
    (s ∈ (signing_and_send_stage o base fs wd a b c d e f).spawned ↔ s ∈ base) := by
  simp only [signing_and_send_stage]
  repeat' split
  all_goals simp [h1, h2]

/-- The create-contract/send tail performs exactly the stores of
create_con_args indices 0 through 8 after the flag store it was given. -/
theorem signing_and_send_stage_argStores (o : PipelineOracle)
    (base : List String) (fs : List (Nat × String)) (wd a b c d e f : String) :
    (signing_and_send_stage o base fs wd a b c d e f).argStores =
      fs ++ [(0, wd), (1, a), (2, b), (3, c), (4, d), (5, e), (6, f),
             (7, "1"), (8, "1")] := by
  simp only [signing_and_send_stage]
  repeat' split
  all_goals rfl

/-- C3 (amended): a failed copy of the partner-certificate path is never
fatal — the run behaves exactly as if no partner certificate were
configured; the string-copy allocation failure that is fatal to the
pipeline is the one incurred while copying the working directory, which
aborts before any stage is spawned; and a missing partner certificate
skips the encryption stage without error. -/
theorem C3_amended_only_workdir_copy_failure_is_fatal :
    (∀ (o : PipelineOracle) (scen : Scenario) (a b c d e f : String),
        o.partnerCertStrdupOk = false →
        execute_sign_send_pipeline o scen a b c d e f =
          execute_sign_send_pipeline o { scen with partner_cert := none } a b c d e f)
    ∧ (∀ (o : PipelineOracle) (scen : Scenario) (a b c d e f : String),
        o.workdirStrdupOk = false →
        (execute_sign_send_pipeline o scen a b c d e f).outcome = PipeOutcome.ret (-1)
        ∧ (execute_sign_send_pipeline o scen a b c d e f).spawned = [])
    ∧ (∀ (o : PipelineOracle) (scen : Scenario) (a b c d e f : String),
        scen.partner_cert = none →
        "encrypt_asp" ∉ (execute_sign_send_pipeline o scen a b c d e f).spawned) := by
  refine ⟨?_, ?_, ?_⟩
  · intro o scen a b c d e f h
    cases hw : scen.workdir <;>
      simp [execute_sign_send_pipeline, h, hw]
  · intro o scen a b c d e f h
    cases hw : scen.workdir <;>
      simp [execute_sign_send_pipeline, h, hw]
  · intro o scen a b c d e f h
    rcases hw : scen.workdir with _ | wd
    · simp [execute_sign_send_pipeline, hw]
    · have hns : scen.partner_cert.isSome = false := by
        rw [h]
        rfl
      simp only [execute_sign_send_pipeline, hw, hns, Bool.false_and]
      repeat' split
      all_goals try (simp; done)
      all_goals try (simp_all; done)
      all_goals
        rw [signing_and_send_stage_spawned_mem o _ _ wd a b c d e f "encrypt_asp"
          (by decide) (by decide)]
      all_goals decide

/-- Witness for C3 (amended) at concrete runs: the cert-copy-failure run
equals the no-certificate run, and the workdir-copy-failure run aborts
with nothing spawned. -/
theorem C3_amended_witness :
    execute_sign_send_pipeline pipeOracleCertCopyFail scenWithCert
        "cert" "key" "keypass" "tpmpass" "akctx" "1" =
      execute_sign_send_pipeline pipeOracleCertCopyFail
        { scenWithCert with partner_cert := none }
        "cert" "key" "keypass" "tpmpass" "akctx" "1"
    ∧ (execute_sign_send_pipeline pipeOracleWorkdirFail scenWithCert
        "cert" "key" "keypass" "tpmpass" "akctx" "1").outcome = PipeOutcome.ret (-1) :=
  ⟨C3_amended_only_workdir_copy_failure_is_fatal.1 pipeOracleCertCopyFail
      scenWithCert "cert" "key" "keypass" "tpmpass" "akctx" "1" rfl,
   (C3_amended_only_workdir_copy_failure_is_fatal.2.1 pipeOracleWorkdirFail
      scenWithCert "cert" "key" "keypass" "tpmpass" "akctx" "1" rfl).1⟩

/-- C4 counterexample: a run whose scenario has the partner certificate
set but whose copy of the certificate path fails spawns no encryption
stage and hands the signing stage the flag "0", against the claim's "if
it is set, the encryption stage is spawned and the flag is 1". -/
theorem C4_counterexample_cert_set_copy_fails :
    scenWithCert.partner_cert.isSome = true
    ∧ "encrypt_asp" ∉ (execute_sign_send_pipeline pipeOracleCertCopyFail scenWithCert
        "cert" "key" "keypass" "tpmpass" "akctx" "1").spawned
    ∧ encryptionFlag (execute_sign_send_pipeline pipeOracleCertCopyFail scenWithCert
        "cert" "key" "keypass" "tpmpass" "akctx" "1") = some "0" := by
  refine ⟨rfl, ?_, rfl⟩
  decide

/-- C4 (amended): in every pipeline run that reaches the optional
encryption step, if the partner certificate is unset or its path copy
fails then the encryption stage is never spawned and the signing stage's
encryption-flag argument is "0"; if it is set and the copy succeeds then
the encryption stage is spawned and the flag is "1". -/
theorem C4_amended_encrypt_spawned_iff_cert_copied
    (o : PipelineOracle) (scen : Scenario) (a b c d e f : String)
    (hr : pipeline_reaches_stage_three o scen) :
    ((scen.partner_cert.isSome && o.partnerCertStrdupOk) = false →
      "encrypt_asp" ∉ (execute_sign_send_pipeline o scen a b c d e f).spawned
      ∧ encryptionFlag (execute_sign_send_pipeline o scen a b c d e f) = some "0")
    ∧ ((scen.partner_cert.isSome && o.partnerCertStrdupOk) = true →
      "encrypt_asp" ∈ (execute_sign_send_pipeline o scen a b c d e f).spawned
      ∧ encryptionFlag (execute_sign_send_pipeline o scen a b c d e f) = some "1") := by
  obtain ⟨hwd, h1, h2, h3, h4, h5, h6, h7, h8, h9⟩ := hr
  rcases hw : scen.workdir with _ | wd
  · rw [hw] at hwd
    exact absurd hwd (by simp)
  have hrun : execute_sign_send_pipeline o scen a b c d e f =
      (if scen.partner_cert.isSome && o.partnerCertStrdupOk then
        match o.encryptFork with
        | ForkOutcome.spawnFail =>
          ⟨PipeOutcome.procExit (-1),
           ["serialize_graph_asp", "compress_asp", "encrypt_asp"], [(9, "1")], none⟩
        | ForkOutcome.waitFail =>
          ⟨PipeOutcome.procExit (-1),
           ["serialize_graph_asp", "compress_asp", "encrypt_asp"], [(9, "1")], none⟩
        | ForkOutcome.parent =>
          ⟨PipeOutcome.procExit 0,
           ["serialize_graph_asp", "compress_asp", "encrypt_asp"], [(9, "1")], none⟩
        | ForkOutcome.child =>
          signing_and_send_stage o
            ["serialize_graph_asp", "compress_asp", "encrypt_asp"]
            [(9, "1")] wd a b c d e f
      else
        signing_and_send_stage o ["serialize_graph_asp", "compress_asp"]
          [(9, "0")] wd a b c d e f) := by
    simp [execute_sign_send_pipeline, hw, h1, h2, h3, h4, h5, h6, h7, h8, h9]
  rw [hrun]
  constructor
  · intro hcond
    rw [if_neg (by simp [hcond])]
    constructor
    · rw [signing_and_send_stage_spawned_mem o _ _ wd a b c d e f "encrypt_asp"
        (by decide) (by decide)]
      decide
    · unfold encryptionFlag
      rw [signing_and_send_stage_argStores]
      rfl
  · intro hcond
    rw [if_pos (by simp [hcond])]
    cases o.encryptFork
    · exact ⟨by simp, rfl⟩
    · exact ⟨by simp, rfl⟩
    · exact ⟨by simp, rfl⟩
    · constructor
      · rw [signing_and_send_stage_spawned_mem o _ _ wd a b c d e f "encrypt_asp"
          (by decide) (by decide)]
        decide
      · unfold encryptionFlag
        rw [signing_and_send_stage_argStores]
        rfl

/-- Witness for C4 (amended) at concrete runs with the certificate unset
and with it set and successfully copied. -/
theorem C4_amended_witness :
    ("encrypt_asp" ∉ (execute_sign_send_pipeline pipeOracleAllChild scenNoCert
        "cert" "key" "keypass" "tpmpass" "akctx" "1").spawned
      ∧ encryptionFlag (execute_sign_send_pipeline pipeOracleAllChild scenNoCert
        "cert" "key" "keypass" "tpmpass" "akctx" "1") = some "0")
    ∧ ("encrypt_asp" ∈ (execute_sign_send_pipeline pipeOracleAllChild scenWithCert
        "cert" "key" "keypass" "tpmpass" "akctx" "1").spawned
      ∧ encryptionFlag (execute_sign_send_pipeline pipeOracleAllChild scenWithCert
        "cert" "key" "keypass" "tpmpass" "akctx" "1") = some "1") :=
  ⟨(C4_amended_encrypt_spawned_iff_cert_copied pipeOracleAllChild scenNoCert
      "cert" "key" "keypass" "tpmpass" "akctx" "1"
      (by unfold pipeline_reaches_stage_three; decide)).1 rfl,
   (C4_amended_encrypt_spawned_iff_cert_copied pipeOracleAllChild scenWithCert
      "cert" "key" "keypass" "tpmpass" "akctx" "1"
      (by unfold pipeline_reaches_stage_three; decide)).2 rfl⟩

/-- C8 counterexample: an invocation carrying a third place identifier
among its arguments fails the run at the argument-count check (returns
-1), while the same invocation without it succeeds with the pipeline's
result — so the extra argument is not ignored and the run fails on its
account. -/
theorem C8_counterexample_third_argument_fails_run :
    apb_execute apbOracleEx
      [⟨"@_0", "a"⟩, ⟨"@_t", "b"⟩, ⟨"@_x", "c"⟩] = -1
    ∧ apb_execute apbOracleEx [⟨"@_0", "a"⟩, ⟨"@_t", "b"⟩] = 7 :=
  ⟨rfl, rfl⟩

/-- C8 (amended): within the argument loop an argument whose key is not
one of the two configured place identifiers is logged and skipped — the
loop continues exactly as if the argument were absent and never aborts on
it; however, an actual third argument makes the argument-count check fail
the whole run with -1 before any argument is examined. -/
theorem C8_amended_unknown_key_skipped_but_count_checked :
    (∀ (pd : String → Except Int PlaceInfo) (a : KeyValue) (rest : List KeyValue)
        (st : PlacesState) (rv : Int),
        ¬ a.key = "@_0" → ¬ a.key = "@_t" →
        processPlaceArgs pd (a :: rest) st rv = processPlaceArgs pd rest st rv)
    ∧ (∀ (o : ApbOracle) (args : List KeyValue),
        args.length ≠ 2 → apb_execute o args = -1) := by
  constructor
  · intro pd a rest st rv h0 ht
    simp [processPlaceArgs, h0, ht]
  · intro o args h
    simp [apb_execute, h]

/-- Witness for C8 (amended): an unknown key "@_x" is skipped by the
loop, and a three-argument invocation fails with -1. -/
theorem C8_amended_witness :
    processPlaceArgs pdEx [⟨"@_x", "c"⟩, ⟨"@_0", "a"⟩] ⟨none, none⟩ 0 =
      processPlaceArgs pdEx [⟨"@_0", "a"⟩] ⟨none, none⟩ 0
    ∧ apb_execute apbOracleEx
      [⟨"@_0", "a"⟩, ⟨"@_x", "c"⟩, ⟨"@_t", "b"⟩] = -1 :=
  ⟨C8_amended_unknown_key_skipped_but_count_checked.1 pdEx ⟨"@_x", "c"⟩
      [⟨"@_0", "a"⟩] ⟨none, none⟩ 0 (by decide) (by decide),
   C8_amended_unknown_key_skipped_but_count_checked.2 apbOracleEx
      [⟨"@_0", "a"⟩, ⟨"@_x", "c"⟩, ⟨"@_t", "b"⟩] (by decide)⟩

/-- Once the domain-zero place is resolved, no later argument changes it:
duplicates are skipped and other keys never write it. -/
theorem processPlaceArgs_keeps_domZ (pd : String → Except Int PlaceInfo)
    (args : List KeyValue) :
    ∀ (st : PlacesState) (rv : Int) (i : PlaceInfo) (st2 : PlacesState),
      st.domZ = some i →
      (processPlaceArgs pd args st rv).1 = some st2 → st2.domZ = some i := by
  induction args with
  | nil =>
    intro st rv i st2 hz h
    simp only [processPlaceArgs, Option.some.injEq] at h
    rw [← h]
    exact hz
  | cons a rest ih =>
    intro st rv i st2 hz h
    simp only [processPlaceArgs] at h
    by_cases h0 : a.key = "@_0"
    · rw [if_pos h0, hz] at h
      exact ih st rv i st2 hz h
    · by_cases ht : a.key = "@_t"
      · rw [if_neg h0, if_pos ht] at h
        rcases hdt : st.domT with _ | j
        · rw [hdt] at h
          rcases hpd : pd a.value with e | info
          · rw [hpd] at h
            simp at h
          · rw [hpd] at h
            exact ih { st with domT := some info } 0 i st2 hz h
        · rw [hdt] at h
          exact ih st rv i st2 hz h
      · rw [if_neg h0, if_neg ht] at h
        exact ih st rv i st2 hz h

/-- C9: when the key "@_0" is supplied twice with different values, the
second occurrence is skipped and whatever state the argument loop
produces carries the first occurrence's place resolution. -/
theorem C9_duplicate_place_arg_first_occurrence_wins
    (pd : String → Except Int PlaceInfo) (v1 v2 : String)
    (rest : List KeyValue) (dt0 : Option PlaceInfo) (rv : Int)
    (i1 : PlaceInfo) (st2 : PlacesState)
    (_hne : ¬ v1 = v2)
    (hpd : pd v1 = Except.ok i1)
    (hres : (processPlaceArgs pd (⟨"@_0", v1⟩ :: ⟨"@_0", v2⟩ :: rest)
      ⟨none, dt0⟩ rv).1 = some st2) :
    st2.domZ = some i1 := by
  simp only [processPlaceArgs, if_pos rfl] at hres
  rw [hpd] at hres
  exact processPlaceArgs_keeps_domZ pd rest { domZ := some i1, domT := dt0 } 0
    i1 st2 rfl hres

/-- Witness for C9 at a concrete duplicated argument list. -/
theorem C9_witness :
    (⟨some ⟨"127.0.0.1", "9000"⟩, none⟩ : PlacesState).domZ =
      some ⟨"127.0.0.1", "9000"⟩ :=
  C9_duplicate_place_arg_first_occurrence_wins pdEx "a" "zzz" [] none 0
    ⟨"127.0.0.1", "9000"⟩ ⟨some ⟨"127.0.0.1", "9000"⟩, none⟩
    (by decide) rfl rfl

/-- C10: in every run that reaches the measuring stage, the evaluation
engine's result is discarded — whatever it is, the orchestrator proceeds
to the sign-send pipeline and returns the pipeline's result. -/
theorem C10_eval_result_not_fatal_pipeline_result_returned
    (o : ApbOracle) (args : List KeyValue) (st : PlacesState) (rv : Int)
    (hlen : args.length = 2)
    (hreg : ¬ o.registerTypesRc < 0)
    (hproc : processPlaceArgs o.placeDir args ⟨none, none⟩ o.registerTypesRc =
      (some st, rv))
    (hz : st.domZ.isNone = false) (ht : st.domT.isNone = false)
    (hms : o.measSpecRc = 0) (hg : o.graphOk = true) (hst : o.stagingOk = true) :
    ∀ e : Int, apb_execute { o with evalRc := e } args = o.pipelineRc := by
  intro e
  simp [apb_execute, hlen, hreg, hproc, hz, ht, hms, hg, hst]

/-- Witness for C10: the pipeline result is returned for an arbitrary
evaluation result at a concrete run. -/
theorem C10_witness :
    apb_execute { apbOracleEx with evalRc := 5 }
      [⟨"@_0", "a"⟩, ⟨"@_t", "b"⟩] = 7 :=
  C10_eval_result_not_fatal_pipeline_result_returned apbOracleEx
    [⟨"@_0", "a"⟩, ⟨"@_t", "b"⟩]
    ⟨some ⟨"127.0.0.1", "9000"⟩, some ⟨"127.0.0.1", "9001"⟩⟩ 0
    rfl (by decide) rfl rfl rfl rfl rfl rfl 5
